import Mathlib

/-!
Verification development for the voice-app-launcher repository.

The detection-and-dispatch engine (`engine.py`) is shallowly embedded below:
Python dictionaries holding the configuration become the `PyVal` type, the
engine's `run` method becomes a pure function from an environment (the opaque
audio device, detector backend, filesystem and PATH oracles) and a script of
loop iterations to a result (normal return or escaping exception) together
with a trace of observable events (resource acquisition and release, log
calls, process spawns, cooldown-timestamp writes).  Machine floats are
modelled as rationals; the monotonic clock is an input of each loop
iteration.  Purely informational logging (the startup banner and the
debug-only model-introspection block) is not modelled; the `logError`,
`logWarning` and `logDebug` events track the failure-handling log calls.
-/

namespace VoiceAppLauncher

/-- A Python value, as far as the engine's configuration handling needs:
`None`, booleans, ints, floats, strings, lists and string-keyed dicts. -/
inductive PyVal where
  | none : PyVal
  | bool (b : Bool) : PyVal
  | int (n : Int) : PyVal
  | float (q : ℚ) : PyVal
  | str (s : String) : PyVal
  | list (xs : List PyVal) : PyVal
  | dict (kvs : List (String × PyVal)) : PyVal

/-- First-match lookup in a dict's key/value list (Python dict lookup). -/
def pyLookup : List (String × PyVal) → String → Option PyVal
  | [], _ => Option.none
  | (k, v) :: rest, key => if k = key then Option.some v else pyLookup rest key

/-- Python truthiness (`bool(v)`) for the embedded values. -/
def PyVal.truthy : PyVal → Bool
  | .none => false
  | .bool b => b
  | .int n => decide (n ≠ 0)
  | .float q => decide (q ≠ 0)
  | .str s => decide (s ≠ "")
  | .list xs => !xs.isEmpty
  | .dict kvs => !kvs.isEmpty

/-- `v.get(key)` on a dict (default `None`); raises `AttributeError` on a
non-dict, mirroring Python attribute lookup failure. -/
def pyGet (v : PyVal) (key : String) : Except String PyVal :=
  match v with
  | .dict kvs => .ok ((pyLookup kvs key).getD .none)
  | _ => .error "AttributeError: object has no attribute get"

/-- `self.config.get(key, dict()) if isinstance(self.config, dict) else dict()`
— the guarded section access used at the top of `run()`. -/
def cfgSection (config : PyVal) (key : String) : PyVal :=
  match config with
  | .dict kvs => (pyLookup kvs key).getD (.dict [])
  | _ => .dict []

/-- Digits of a decimal literal to a natural number; `Option.none` when the
character list is empty or holds a non-digit. -/
def decDigits? (cs : List Char) : Option ℕ :=
  match cs with
  | [] => Option.none
  | _ =>
    cs.foldl
      (fun acc c =>
        match acc with
        | Option.none => Option.none
        | Option.some n => if c.isDigit then Option.some (n * 10 + (c.toNat - 48)) else Option.none)
      (Option.some 0)

/-- Parse a simple decimal float literal (optional sign, `1`, `1.5`, `.5`,
`1.`), the shapes Python's `float(str)` accepts that the configuration could
plausibly contain. -/
def parseFloatLit? (s : String) : Option ℚ :=
  let t := s.trim
  let (sign, rest) :=
    if t.startsWith "-" then ((-1 : ℚ), t.drop 1)
    else if t.startsWith "+" then ((1 : ℚ), t.drop 1) else ((1 : ℚ), t)
  match rest.splitOn "." with
  | [ip] => (decDigits? ip.toList).map (fun n => sign * (n : ℚ))
  | [ip, fp] =>
    if ip.isEmpty ∧ fp.isEmpty then Option.none
    else
      let ipart : Option ℚ := if ip.isEmpty then Option.some 0 else (decDigits? ip.toList).map (fun n => (n : ℚ))
      let fpart : Option ℚ :=
        if fp.isEmpty then Option.some 0
        else (decDigits? fp.toList).map (fun n => (n : ℚ) / ((10 : ℚ) ^ fp.length))
      match ipart, fpart with
      | Option.some a, Option.some b => Option.some (sign * (a + b))
      | _, _ => Option.none
  | _ => Option.none

/-- Parse a decimal integer literal with optional sign (Python `int(str)`). -/
def parseIntLit? (s : String) : Option Int :=
  let t := s.trim
  let (sign, rest) :=
    if t.startsWith "-" then ((-1 : Int), t.drop 1)
    else if t.startsWith "+" then ((1 : Int), t.drop 1) else ((1 : Int), t)
  (decDigits? rest.toList).map (fun n => sign * (n : Int))

/-- Python's `float(v)`: numbers convert, numeric strings parse, everything
else (in particular `None`, the result of `get` on an absent key) raises. -/
def pyFloat : PyVal → Except String ℚ
  | .float q => .ok q
  | .int n => .ok (n : ℚ)
  | .bool b => .ok (if b then 1 else 0)
  | .str s =>
    match parseFloatLit? s with
    | Option.some q => .ok q
    | Option.none => .error "ValueError: could not convert string to float"
  | .none => .error "TypeError: float() argument must be a string or a real number, not NoneType"
  | _ => .error "TypeError: float() argument"

/-- Truncation toward zero, the behaviour of Python's `int(float)`. -/
def ratTrunc (q : ℚ) : Int :=
  if q < 0 then -(Int.floor (-q)) else Int.floor q

/-- Python's `int(v)`: ints pass through, floats truncate, integer strings
parse, everything else (in particular `None`) raises. -/
def pyInt : PyVal → Except String Int
  | .int n => .ok n
  | .bool b => .ok (if b then 1 else 0)
  | .float q => .ok (ratTrunc q)
  | .str s =>
    match parseIntLit? s with
    | Option.some n => .ok n
    | Option.none => .error "ValueError: invalid literal for int() with base 10"
  | .none => .error "TypeError: int() argument must be a string or a real number, not NoneType"
  | _ => .error "TypeError: int() argument"

/-- Python iteration (`for x in v`): lists yield elements, strings yield
one-character strings, dicts yield their keys; other values raise. -/
def pyIter : PyVal → Except String (List PyVal)
  | .list xs => .ok xs
  | .str s => .ok (s.toList.map (fun c => .str (String.singleton c)))
  | .dict kvs => .ok (kvs.map (fun kv => .str kv.1))
  | _ => .error "TypeError: object is not iterable"

/-- Lexer mode of `shlex` in POSIX mode: outside quotes, inside single
quotes, inside double quotes. -/
inductive SMode where
  | normal : SMode
  | single : SMode
  | double : SMode
deriving DecidableEq

/-- Append the pending token (if any) in front of a token-list result. -/
def flushTok (cur : Option String) (r : Except String (List String)) :
    Except String (List String) :=
  match cur with
  | Option.none => r
  | Option.some t => r.map (fun ts => t :: ts)

/-- Core of `shlex.split` (POSIX mode, whitespace splitting): whitespace
separates tokens, single quotes are literal, double quotes allow `\"` and
`\\` escapes, a backslash outside quotes escapes the next character; an
unterminated quote or a trailing backslash raises `ValueError`.  The fuel
argument (at least the input length at the entry point, each step consumes
at least one character) only makes the recursion structural. -/
def shlexAux : ℕ → List Char → SMode → Option String → Except String (List String)
  | _, [], .normal, cur => flushTok cur (.ok [])
  | _, [], _, _ => .error "ValueError: No closing quotation"
  | 0, _ :: _, _, _ => .error "ValueError: out of fuel"
  | fuel + 1, c :: rest, .normal, cur =>
    if c = ' ' ∨ c = '\t' ∨ c = '\n' ∨ c = '\r' then
      flushTok cur (shlexAux fuel rest .normal Option.none)
    else if c = '\'' then shlexAux fuel rest .single (Option.some (cur.getD ""))
    else if c = '"' then shlexAux fuel rest .double (Option.some (cur.getD ""))
    else if c = '\\' then
      match rest with
      | [] => .error "ValueError: No escaped character"
      | d :: rest2 => shlexAux fuel rest2 .normal (Option.some ((cur.getD "").push d))
    else shlexAux fuel rest .normal (Option.some ((cur.getD "").push c))
  | fuel + 1, c :: rest, .single, cur =>
    if c = '\'' then shlexAux fuel rest .normal cur
    else shlexAux fuel rest .single (Option.some ((cur.getD "").push c))
  | fuel + 1, c :: rest, .double, cur =>
    if c = '"' then shlexAux fuel rest .normal cur
    else if c = '\\' then
      match rest with
      | [] => .error "ValueError: No closing quotation"
      | d :: rest2 =>
        if d = '"' ∨ d = '\\' then shlexAux fuel rest2 .double (Option.some ((cur.getD "").push d))
        else shlexAux fuel rest2 .double (Option.some (((cur.getD "").push '\\').push d))
    else shlexAux fuel rest .double (Option.some ((cur.getD "").push c))

/-- `shlex.split(s)`: shell-style tokenization of one command string. -/
def shlexSplit (s : String) : Except String (List String) :=
  shlexAux s.toList.length s.toList .normal Option.none

/-- The opaque collaborators of one `run()`: the user's home directory (for
`Path.expanduser`), whether `pa.open` fails, whether the `Model` constructor
fails, the labels the constructed model tracks (its `prediction_buffer`
keys), and the filesystem (`Path.exists`), search-path (`shutil.which`) and
spawn (`subprocess.Popen`) oracles. -/
structure Env where
  home : String
  openFails : Bool
  modelConstructFails : Bool
  initLabels : List String
  pathExists : String → Bool
  which : String → Bool
  spawnFails : List String → Bool

/-- One iteration of the capture/score/dispatch loop, as seen through the
opaque audio source and detector: whether `stream.read` raises, whether
`m.predict` raises, the monotonic-clock reading `time.monotonic()` of this
iteration (the source's two calls per cooldown decision are modelled as the
same reading), and the detector's `prediction_buffer` contents after
`predict` (label, rolling score list).  `run()` loops while the shared stop event is
unset; a run's input script is the list of iterations executed before the
event is observed set. -/
structure Frame where
  readFails : Bool
  predictFails : Bool
  now : ℚ
  buffer : List (String × List ℚ)

/-- The local variables `run()` resolves from the configuration before
opening any resource. -/
structure Params where
  modelPaths : PyVal
  wakewords : PyVal
  sensitivity : ℚ
  cooldown : ℚ
  chunk : Int
  sampleRate : Int
  channels : Int

/-- Observable events of one `run()`: resource acquisition and release,
model construction (with the resolved paths, or with the library's built-in
default model set), log calls, a `last_hit[label] = now` write, and a
process spawn. -/
inductive Ev where
  | streamOpen : Ev
  | streamStop : Ev
  | streamClose : Ev
  | paTerminate : Ev
  | modelConstruct (paths : List String) : Ev
  | modelConstructDefault : Ev
  | lastHitSet (label : String) (t : ℚ) : Ev
  | spawn (argv : List String) : Ev
  | logError (msg : String) : Ev
  | logWarning (msg : String) : Ev
  | logDebug (msg : String) : Ev
  | logInfo (msg : String) : Ev
deriving DecidableEq

/-- The engine object: the stored configuration reference and the
`_running` flag (`self._running`).  The shared `threading.Event` the loop
polls is passed alongside where an operation touches it. -/
structure Engine where
  config : PyVal
  runningFlag : Bool

/-- Result of `run()`: normal return (`.ok`) or an escaping exception
(`.error` with the exception message), plus the event trace. -/
structure RunResult where
  outcome : Except String Unit
  trace : List Ev

/-- `engine.start()`: logs and sets `self._running = True`. -/
def startEngine (e : Engine) : Engine := { e with runningFlag := true }

/-- `engine.stop()`: logs and sets `self._running = False`.  It is given
the shared stop event and returns it unchanged, because the source's
`stop()` never touches `self.stop_event`. -/
def stopEngine (e : Engine) (stopEventSet : Bool) : Engine × Bool :=
  ({ e with runningFlag := false }, stopEventSet)

/-- `engine.reload_config(config)`: logs and replaces `self.config`. -/
def reload_config (e : Engine) (config : PyVal) : Engine :=
  { e with config := config }

/-- The loop guard `while not self.stop_event.is_set()` as a function of
the shared event's state. -/
def loopCondition (stopEventSet : Bool) : Bool := !stopEventSet

/-- Resolution of `run()`'s local configuration variables, in source order;
the first failing access or conversion is the exception `run()` raises. -/
def resolveParams (config : PyVal) : Except String Params :=
  let gen := cfgSection config "general"
  let audio := cfgSection config "audio"
  let ww := cfgSection config "wakewords"
  match pyGet gen "model_paths" with
  | .error e => .error e
  | .ok mp =>
    match (pyGet gen "sensitivity").bind pyFloat with
    | .error e => .error e
    | .ok sens =>
      match (pyGet gen "launch_cooldown_secs").bind pyFloat with
      | .error e => .error e
      | .ok cd =>
        match (pyGet audio "chunk_size").bind pyInt with
        | .error e => .error e
        | .ok chunk =>
          match (pyGet audio "sample_rate").bind pyInt with
          | .error e => .error e
          | .ok sr =>
            match (pyGet audio "channels").bind pyInt with
            | .error e => .error e
            | .ok ch => .ok ⟨mp, ww, sens, cd, chunk, sr, ch⟩

/-- `str(Path(p).expanduser())` for one model-path entry: strings expand a
leading `~`, any other value makes the `Path` constructor raise. -/
def pyPathStr (home : String) (v : PyVal) : Except String String :=
  match v with
  | .str s =>
    match s.toList with
    | ['~'] => .ok home
    | '~' :: '/' :: _ => .ok (home ++ s.drop 1)
    | _ => .ok s
  | _ => .error "TypeError: argument should be a str or an os.PathLike object"

/-- The model-path resolution inside `run()`'s model-construction `try`:
`resolved_paths` is built only when `model_paths` is truthy and a
list/tuple, filtering falsy entries; a falsy result raises the deliberate
`RuntimeError` instead of constructing a default `Model()`. -/
def resolveModelPaths (home : String) (mp : PyVal) : Except String (List String) :=
  match mp with
  | .list xs =>
    if xs.isEmpty then .error "RuntimeError: No model_paths provided in config"
    else do
      let paths ← (xs.filter PyVal.truthy).mapM (pyPathStr home)
      if paths.isEmpty then .error "RuntimeError: No model_paths provided in config"
      else return paths
  | _ => .error "RuntimeError: No model_paths provided in config"

/-- The model-construction block of `run()`: on any failure (unusable
paths, a path conversion error, or the `Model` constructor raising) the
exception is caught and `Option.none` is returned with the error log; on
success the tracked labels are returned.  The engine never falls back to a
default `Model()` construction. -/
def modelInit (env : Env) (p : Params) : List Ev × Option (List String) :=
  match resolveModelPaths env.home p.modelPaths with
  | .error msg => ([.logError msg], Option.none)
  | .ok paths =>
    if env.modelConstructFails then
      ([.modelConstruct paths, .logError "Failed to initialize openwakeword Model"], Option.none)
    else ([.modelConstruct paths], Option.some env.initLabels)

/-- `scores[-1] if scores else None`: the label's current score. -/
def currentScore (scores : List ℚ) : Option ℚ := scores.getLast?

/-- The per-frame detection test of `run()`: skip when there is no current
score or it is falsy (`if not curr: continue`), otherwise detected iff
`curr > sensitivity` (strict). -/
def frameDetected (sensitivity : ℚ) (scores : List ℚ) : Bool :=
  match currentScore scores with
  | Option.none => false
  | Option.some c => decide (c ≠ 0) && decide (sensitivity < c)

/-- `last_hit.get(label, 0.0)`: the last-fired store with its `0.0`
never-fired sentinel. -/
def lhLookup : List (String × ℚ) → String → ℚ
  | [], _ => 0
  | (l, t) :: rest, label => if l = label then t else lhLookup rest label

/-- Exact rational subtraction computed on numerators and denominators.
It equals `a - b` (theorem `qsub_eq_sub` below); it is spelled out so that
the kernel can evaluate the model on closed inputs. -/
def qsub (a b : ℚ) : ℚ :=
  mkRat (a.num * (b.den : Int) - b.num * (a.den : Int)) (a.den * b.den)

/-- The cooldown gate of `run()`: `time_passed = now - last_hit.get(label,
0.0)`, and the detection is dropped iff `time_passed < launch_cooldown_secs`. -/
def isEligible (cooldown now : ℚ) (lh : List (String × ℚ)) (label : String) : Bool :=
  !decide (qsub now (lhLookup lh label) < cooldown)

/-- `cmds = wakewords.get(label) or []` under its `try`/`except` (a lookup
on a non-dict raises `AttributeError`, caught to `[]`; a falsy stored value
also yields `[]`). -/
def cmdsOf (wakewords : PyVal) (label : String) : PyVal :=
  match wakewords with
  | .dict kvs =>
    let v := (pyLookup kvs label).getD .none
    if v.truthy then v else .list []
  | _ => .list []

/-- Handling of one configured command string: skip falsy commands,
tokenize with `shlex.split` (whose exception is NOT caught and escapes the
loop), skip empty tokenizations, spawn only when the executable resolves as
a filesystem path or on the search path (a spawn failure is a logged
warning), otherwise log at debug level. -/
def procCmd (env : Env) (cmd : PyVal) : Except String (List Ev) :=
  if ¬ cmd.truthy then .ok []
  else
    match cmd with
    | .str s =>
      match shlexSplit s with
      | .error e => .error e
      | .ok [] => .ok []
      | .ok (exe :: args) =>
        if env.pathExists exe || env.which exe then
          if env.spawnFails (exe :: args) then
            .ok [.logWarning ("Failed to launch " ++ exe)]
          else .ok [.spawn (exe :: args)]
        else .ok [.logDebug ("Configured command not found on PATH or as file: " ++ exe)]
    | _ => .error "AttributeError: shlex needs a string to split"

/-- The events of one command when its handling does not raise. -/
def cmdEvs (env : Env) (cmd : PyVal) : List Ev :=
  match procCmd env cmd with
  | .ok evs => evs
  | .error _ => []

/-- `for cmd in cmds`: commands in order; an escaping tokenization
exception aborts the remaining commands of the list. -/
def procCmds (env : Env) : List PyVal → List Ev × Option String
  | [] => ([], Option.none)
  | c :: rest =>
    match procCmd env c with
    | .error e => ([], Option.some e)
    | .ok evs =>
      let r := procCmds env rest
      (evs ++ r.1, r.2)

/-- Handling of one `prediction_buffer` entry inside the per-frame label
loop: detection test, cooldown gate, `last_hit[label] = now` recorded
before any dispatch, then the command list (whose iteration may raise). -/
def procEntry (env : Env) (p : Params) (now : ℚ) (lh : List (String × ℚ))
    (entry : String × List ℚ) : List (String × ℚ) × List Ev × Option String :=
  if frameDetected p.sensitivity entry.2 then
    if isEligible p.cooldown now lh entry.1 then
      let lh2 := (entry.1, now) :: lh
      match pyIter (cmdsOf p.wakewords entry.1) with
      | .error e => (lh2, [.lastHitSet entry.1 now], Option.some e)
      | .ok cmds =>
        let r := procCmds env cmds
        (lh2, .lastHitSet entry.1 now :: r.1, r.2)
    else (lh, [], Option.none)
  else (lh, [], Option.none)

/-- `for model in m.prediction_buffer.keys()`: entries in order; an
escaping exception aborts the rest of the frame. -/
def procBuffer (env : Env) (p : Params) (now : ℚ) :
    List (String × List ℚ) → List (String × ℚ) → List (String × ℚ) × List Ev × Option String
  | [], lh => (lh, [], Option.none)
  | entry :: rest, lh =>
    match procEntry env p now lh entry with
    | (lh2, evs, Option.some e) => (lh2, evs, Option.some e)
    | (lh2, evs, Option.none) =>
      let r := procBuffer env p now rest lh2
      (r.1, evs ++ r.2.1, r.2.2)

/-- One loop iteration: a failed read logs a warning and continues, a
failed predict logs at debug level and continues, otherwise every tracked
label is examined. -/
def procFrame (env : Env) (p : Params) (lh : List (String × ℚ)) (f : Frame) :
    List (String × ℚ) × List Ev × Option String :=
  if f.readFails then (lh, [.logWarning "Audio read failed"], Option.none)
  else if f.predictFails then (lh, [.logDebug "Model prediction failed"], Option.none)
  else procBuffer env p f.now f.buffer lh

/-- The `while not self.stop_event.is_set()` loop over the run's iteration
script; an escaping exception ends the loop early. -/
def runLoop (env : Env) (p : Params) :
    List (String × ℚ) → List Frame → List Ev × Option String
  | _, [] => ([], Option.none)
  | lh, f :: rest =>
    match procFrame env p lh f with
    | (_, evs, Option.some e) => (evs, Option.some e)
    | (lh2, evs, Option.none) =>
      let r := runLoop env p lh2 rest
      (evs ++ r.1, r.2)

/-- `engine.run()`: configuration resolution (an exception here escapes with
nothing acquired), audio acquisition (failure is logged, the PyAudio handle
terminated, and `run` returns), model construction (failure is logged,
stream closed, handle terminated, and `run` returns), `last_hit`
initialization to the `0.0` sentinel for every tracked label, the loop, and
the `finally` block releasing the stream (stop, then close) and terminating
the handle on every loop exit path before returning or re-raising. -/
def Engine.run (env : Env) (e : Engine) (frames : List Frame) : RunResult :=
  match resolveParams e.config with
  | .error exc => ⟨.error exc, []⟩
  | .ok p =>
    if env.openFails then
      ⟨.ok (), [.logError "Failed to open microphone stream", .paTerminate]⟩
    else
      let mi := modelInit env p
      match mi.2 with
      | Option.none => ⟨.ok (), .streamOpen :: mi.1 ++ [.streamClose, .paTerminate]⟩
      | Option.some labels =>
        let lh0 := labels.map (fun l => (l, (0 : ℚ)))
        let r := runLoop env p lh0 frames
        match r.2 with
        | Option.none =>
          ⟨.ok (), .streamOpen :: mi.1 ++ r.1
              ++ [.streamStop, .streamClose, .paTerminate, .logInfo "run loop exiting"]⟩
        | Option.some exc =>
          ⟨.error exc, .streamOpen :: mi.1 ++ r.1 ++ [.streamStop, .streamClose, .paTerminate]⟩

/-- `_engine_thread` from `main.py`: calls `run()`; an escaping exception
is logged and the shared stop event set.  Returns whether the handler set
the event, and the combined trace. -/
def engineThread (env : Env) (e : Engine) (frames : List Frame) : Bool × List Ev :=
  match Engine.run env e frames with
  | ⟨.ok _, tr⟩ => (false, tr)
  | ⟨.error _, tr⟩ => (true, tr ++ [.logError "Unhandled exception in engine run loop"])

/-- An action interleaved with an in-flight `run()`: either the loop
executes one iteration (reading only the locals resolved at run start), or
another execution context calls `reload_config` on the engine object. -/
inductive Act where
  | frame (f : Frame) : Act
  | reload (c : PyVal) : Act

/-- Whether an action is a loop iteration. -/
def Act.isFrame : Act → Bool
  | .frame _ => true
  | .reload _ => false

/-- The joint state of the engine object and an in-flight `run()`: the
shared engine (whose `config` field `reload_config` overwrites), and the
run's private locals — the resolved parameters, the `last_hit` store, and
the trace produced so far. -/
structure MState where
  engine : Engine
  params : Params
  lastHit : List (String × ℚ)
  trace : List Ev

/-- One interleaving step: a reload overwrites the engine's stored
configuration reference; a loop iteration runs the frame against the
private locals. -/
def mstep (env : Env) (s : MState) (a : Act) : MState :=
  match a with
  | .reload c => { s with engine := reload_config s.engine c }
  | .frame f =>
    let r := procFrame env s.params s.lastHit f
    { s with lastHit := r.1, trace := s.trace ++ r.2.1 }

/-- Run an interleaved action sequence. -/
def mrun (env : Env) (s : MState) (acts : List Act) : MState :=
  acts.foldl (mstep env) s

/-- The monotonic timestamps recorded by `last_hit[label] = now` writes for
one label, in trace order. -/
def fireTimes (label : String) : List Ev → List ℚ
  | [] => []
  | .lastHitSet l t :: rest => if l = label then t :: fireTimes label rest else fireTimes label rest
  | _ :: rest => fireTimes label rest

/-- A concrete collaborator environment used to evaluate the model on
closed inputs: `echo` and `failspawn` are on the search path, spawning
`failspawn` fails, the model tracks the single label `wake_a`. -/
def sampleEnv : Env where
  home := "/home/u"
  openFails := false
  modelConstructFails := false
  initLabels := ["wake_a"]
  pathExists := fun _ => false
  which := fun s => s == "echo" || s == "failspawn"
  spawnFails := fun argv => argv.head? == Option.some "failspawn"

/-- A loop iteration at monotonic time `t` whose detector reports score
`sc` for `wake_a`. -/
def sampleFrame (t sc : ℚ) : Frame :=
  { readFails := false, predictFails := false, now := t, buffer := [("wake_a", [sc])] }

/-- A complete `audio` configuration table. -/
def audioTable : PyVal :=
  .dict [("chunk_size", .int 1280), ("sample_rate", .int 16000), ("channels", .int 1)]

/-- A complete, valid configuration: one model path, sensitivity 0.5,
cooldown 3.0, `wake_a` mapped to `echo hi`. -/
def sampleCfg : PyVal :=
  .dict [("general", .dict [("model_paths", .list [.str "~/m.onnx"]),
            ("sensitivity", .float (mkRat 1 2)), ("launch_cooldown_secs", .float 3)]),
         ("audio", audioTable),
         ("wakewords", .dict [("wake_a", .list [.str "echo hi"])])]

/-- The parameters `run()` resolves from `sampleCfg`. -/
def sampleParams : Params :=
  ⟨.list [.str "~/m.onnx"], .dict [("wake_a", .list [.str "echo hi"])], mkRat 1 2, 3, 1280, 16000, 1⟩

/-- `sampleCfg` with the required `sensitivity` field removed. -/
def cfgMissingSensitivity : PyVal :=
  .dict [("general", .dict [("model_paths", .list [.str "~/m.onnx"]),
            ("launch_cooldown_secs", .float 3)]),
         ("audio", audioTable),
         ("wakewords", .dict [("wake_a", .list [.str "echo hi"])])]

/-- `sampleCfg` with the required `chunk_size` field removed. -/
def cfgMissingChunk : PyVal :=
  .dict [("general", .dict [("model_paths", .list [.str "~/m.onnx"]),
            ("sensitivity", .float (mkRat 1 2)), ("launch_cooldown_secs", .float 3)]),
         ("audio", .dict [("sample_rate", .int 16000), ("channels", .int 1)]),
         ("wakewords", .dict [("wake_a", .list [.str "echo hi"])])]

/-- `sampleCfg` with an empty `model_paths` list. -/
def cfgEmptyPaths : PyVal :=
  .dict [("general", .dict [("model_paths", .list []),
            ("sensitivity", .float (mkRat 1 2)), ("launch_cooldown_secs", .float 3)]),
         ("audio", audioTable),
         ("wakewords", .dict [("wake_a", .list [.str "echo hi"])])]

/-- `sampleCfg` with `wake_a` mapped to a command with an unterminated
quote followed by a valid command. -/
def cfgBadCommand : PyVal :=
  .dict [("general", .dict [("model_paths", .list [.str "~/m.onnx"]),
            ("sensitivity", .float (mkRat 1 2)), ("launch_cooldown_secs", .float 3)]),
         ("audio", audioTable),
         ("wakewords", .dict [("wake_a", .list [.str "\"oops", .str "echo hi"])])]

/-- The parameters `run()` resolves from `cfgEmptyPaths`. -/
def emptyPathsParams : Params :=
  ⟨.list [], .dict [("wake_a", .list [.str "echo hi"])], mkRat 1 2, 3, 1280, 16000, 1⟩

/-- A command list whose first command does not resolve, whose second
resolves but fails to spawn, and whose third spawns. -/
def mixedCmds : List PyVal :=
  [.str "nosuchbin --flag", .str "failspawn x", .str "echo hi"]

/-! ## Theorems -/

/-- `qsub` is exact rational subtraction. -/
theorem qsub_eq_sub (a b : ℚ) : qsub a b = a - b := by
  unfold qsub
  rw [Rat.mkRat_eq_div]
  have ha : (a.den : ℚ) ≠ 0 := by positivity
  have hb : (b.den : ℚ) ≠ 0 := by positivity
  have h2 : a - b = (a.num : ℚ) / a.den - (b.num : ℚ) / b.den := by
    rw [Rat.num_div_den, Rat.num_div_den]
  rw [h2, div_sub_div _ _ ha hb]
  push_cast
  ring_nf

/-- C1 counterexample: the claim says that after `stop()` has been called
the loop condition observed at the next iteration is false.  On the code it
is not: `stop()` writes only `self._running`; with the shared stop event
unset, the loop condition after `stop()` is still true, so `run()` does not
exit its loop. -/
theorem stop_does_not_cancel_cex :
    loopCondition (stopEngine ⟨PyVal.dict [], true⟩ false).2 = true := rfl

/-- C1 amended: `stop()` only clears the `_running` flag; it leaves the
shared stop event — the only input of the loop condition — unchanged, its
engine's stored configuration unchanged, and the behaviour of `run()`
unchanged.  The loop condition is false exactly when the stop event itself
has been set (which the supervisor, not `stop()`, does). -/
theorem stop_clears_flag_only (env : Env) (e : Engine) (ev : Bool) (frames : List Frame) :
    (stopEngine e ev).2 = ev ∧
    (stopEngine e ev).1.runningFlag = false ∧
    (stopEngine e ev).1.config = e.config ∧
    loopCondition ev = !ev ∧
    Engine.run env (stopEngine e ev).1 frames = Engine.run env e frames :=
  ⟨rfl, rfl, rfl, rfl, rfl⟩

/-- C10: `run()` executes identically whether or not `start()` was ever
called: its behaviour does not depend on the `_running` flag, which
`start()` sets, `stop()` clears, and no operation reads. -/
theorem running_flag_never_read (env : Env) (cfg : PyVal) (b b' : Bool)
    (frames : List Frame) (e : Engine) (ev : Bool) (c : PyVal) :
    Engine.run env ⟨cfg, b⟩ frames = Engine.run env ⟨cfg, b'⟩ frames ∧
    Engine.run env (startEngine e) frames = Engine.run env e frames ∧
    (startEngine e).runningFlag = true ∧
    (stopEngine e ev).1.runningFlag = false ∧
    (startEngine e).config = e.config ∧
    (reload_config e c).runningFlag = e.runningFlag :=
  ⟨rfl, rfl, rfl, rfl, rfl, rfl⟩

/-- C4: with a positive configured sensitivity (the configuration invariant
is `sensitivity ∈ (0,1)`), a label with a current score is detected in a
frame iff that score is strictly greater than the sensitivity; in
particular a score exactly equal to the sensitivity is not a detection. -/
theorem detection_strict_threshold (sens c : ℚ) (scores : List ℚ)
    (hs : 0 < sens) (hc : currentScore scores = Option.some c) :
    frameDetected sens scores = true ↔ sens < c := by
  unfold frameDetected
  rw [hc]
  simp only [Bool.and_eq_true, decide_eq_true_eq]
  exact ⟨fun h => h.2, fun h => ⟨ne_of_gt (hs.trans h), h⟩⟩

/-- Witness for C4 at sensitivity 1/2 and current score 3/5. -/
theorem detection_strict_threshold_witness :
    (0 < (1/2 : ℚ) ∧ currentScore [(3/5 : ℚ)] = Option.some (3/5 : ℚ)) ∧
    (frameDetected (1/2) [(3/5 : ℚ)] = true ↔ (1/2 : ℚ) < 3/5) :=
  ⟨⟨by norm_num, rfl⟩, detection_strict_threshold (1/2) (3/5) [(3/5 : ℚ)] (by norm_num) rfl⟩

/-- C3 counterexample: the claim says a never-fired label is eligible for
every value of the monotonic clock.  On the code the never-fired sentinel
is `0.0`, so at clock value 1 with cooldown 3 the label is not eligible —
and a full run whose single frame scores 0.6 > 0.5 at monotonic time 1
records no fire and spawns nothing. -/
theorem first_detection_not_always_eligible_cex :
    isEligible 3 1 [] "wake_a" = false ∧
    fireTimes "wake_a" (Engine.run sampleEnv ⟨sampleCfg, false⟩ [sampleFrame 1 (mkRat 3 5)]).trace = [] ∧
    Ev.spawn ["echo", "hi"] ∉ (Engine.run sampleEnv ⟨sampleCfg, false⟩ [sampleFrame 1 (mkRat 3 5)]).trace :=
  ⟨by decide, by decide, by decide⟩

/-- C3 amended: a never-fired label (its `last_hit` entry absent or equal
to the `0.0` sentinel) is eligible iff the monotonic clock reads at least
`launch_cooldown_secs`; first detections earlier than that on the clock are
suppressed. -/
theorem never_fired_eligible_iff (cd now : ℚ) (lh : List (String × ℚ)) (label : String)
    (h : lhLookup lh label = 0) :
    isEligible cd now lh label = true ↔ cd ≤ now := by
  unfold isEligible
  rw [h, qsub_eq_sub, sub_zero]
  simp [not_lt]

/-- Witness for the amended C3 with cooldown 3 at clock value 5. -/
theorem never_fired_eligible_iff_witness :
    lhLookup [] "wake_a" = 0 ∧ (isEligible 3 5 [] "wake_a" = true ↔ (3 : ℚ) ≤ 5) :=
  ⟨rfl, never_fired_eligible_iff 3 5 [] "wake_a" rfl⟩

/-- A successful `get` call shows the receiver is a dict, so any other
`get` on it also succeeds. -/
theorem pyGet_ok_any {v : PyVal} {k : String} {x : PyVal}
    (h : pyGet v k = Except.ok x) (k' : String) : ∃ y, pyGet v k' = Except.ok y := by
  cases v
  case dict kvs => exact ⟨_, rfl⟩
  all_goals simp [pyGet] at h

/-- If any of the five required numeric fields is absent from its (dict)
section, parameter resolution raises. -/
theorem resolveParams_error_of_absent (config : PyVal)
    (h : pyGet (cfgSection config "general") "sensitivity" = Except.ok PyVal.none ∨
         pyGet (cfgSection config "general") "launch_cooldown_secs" = Except.ok PyVal.none ∨
         pyGet (cfgSection config "audio") "chunk_size" = Except.ok PyVal.none ∨
         pyGet (cfgSection config "audio") "sample_rate" = Except.ok PyVal.none ∨
         pyGet (cfgSection config "audio") "channels" = Except.ok PyVal.none) :
    ∃ exc, resolveParams config = Except.error exc := by
  rcases h with h | h | h | h | h
  · obtain ⟨mp, hmp⟩ := pyGet_ok_any h "model_paths"
    have hb : (pyGet (cfgSection config "general") "sensitivity").bind pyFloat
        = Except.error "TypeError: float() argument must be a string or a real number, not NoneType" := by
      rw [h]; rfl
    exact ⟨_, by simp only [resolveParams, hmp, hb]; rfl⟩
  · obtain ⟨mp, hmp⟩ := pyGet_ok_any h "model_paths"
    cases hs : (pyGet (cfgSection config "general") "sensitivity").bind pyFloat with
    | error e => exact ⟨e, by simp only [resolveParams, hmp, hs]⟩
    | ok sens =>
      have hb : (pyGet (cfgSection config "general") "launch_cooldown_secs").bind pyFloat
          = Except.error "TypeError: float() argument must be a string or a real number, not NoneType" := by
        rw [h]; rfl
      exact ⟨_, by simp only [resolveParams, hmp, hs, hb]; rfl⟩
  · cases hmp : pyGet (cfgSection config "general") "model_paths" with
    | error e => exact ⟨e, by simp only [resolveParams, hmp]⟩
    | ok mp =>
      cases hs : (pyGet (cfgSection config "general") "sensitivity").bind pyFloat with
      | error e => exact ⟨e, by simp only [resolveParams, hmp, hs]⟩
      | ok sens =>
        cases hc : (pyGet (cfgSection config "general") "launch_cooldown_secs").bind pyFloat with
        | error e => exact ⟨e, by simp only [resolveParams, hmp, hs, hc]⟩
        | ok cd =>
          have hb : (pyGet (cfgSection config "audio") "chunk_size").bind pyInt
              = Except.error "TypeError: int() argument must be a string or a real number, not NoneType" := by
            rw [h]; rfl
          exact ⟨_, by simp only [resolveParams, hmp, hs, hc, hb]; rfl⟩
  · cases hmp : pyGet (cfgSection config "general") "model_paths" with
    | error e => exact ⟨e, by simp only [resolveParams, hmp]⟩
    | ok mp =>
      cases hs : (pyGet (cfgSection config "general") "sensitivity").bind pyFloat with
      | error e => exact ⟨e, by simp only [resolveParams, hmp, hs]⟩
      | ok sens =>
        cases hc : (pyGet (cfgSection config "general") "launch_cooldown_secs").bind pyFloat with
        | error e => exact ⟨e, by simp only [resolveParams, hmp, hs, hc]⟩
        | ok cd =>
          cases hch : (pyGet (cfgSection config "audio") "chunk_size").bind pyInt with
          | error e => exact ⟨e, by simp only [resolveParams, hmp, hs, hc, hch]⟩
          | ok chunk =>
            have hb : (pyGet (cfgSection config "audio") "sample_rate").bind pyInt
                = Except.error "TypeError: int() argument must be a string or a real number, not NoneType" := by
              rw [h]; rfl
            exact ⟨_, by simp only [resolveParams, hmp, hs, hc, hch, hb]; rfl⟩
  · cases hmp : pyGet (cfgSection config "general") "model_paths" with
    | error e => exact ⟨e, by simp only [resolveParams, hmp]⟩
    | ok mp =>
      cases hs : (pyGet (cfgSection config "general") "sensitivity").bind pyFloat with
      | error e => exact ⟨e, by simp only [resolveParams, hmp, hs]⟩
      | ok sens =>
        cases hc : (pyGet (cfgSection config "general") "launch_cooldown_secs").bind pyFloat with
        | error e => exact ⟨e, by simp only [resolveParams, hmp, hs, hc]⟩
        | ok cd =>
          cases hch : (pyGet (cfgSection config "audio") "chunk_size").bind pyInt with
          | error e => exact ⟨e, by simp only [resolveParams, hmp, hs, hc, hch]⟩
          | ok chunk =>
            cases hsr : (pyGet (cfgSection config "audio") "sample_rate").bind pyInt with
            | error e => exact ⟨e, by simp only [resolveParams, hmp, hs, hc, hch, hsr]⟩
            | ok sr =>
              have hb : (pyGet (cfgSection config "audio") "channels").bind pyInt
                  = Except.error "TypeError: int() argument must be a string or a real number, not NoneType" := by
                rw [h]; rfl
              exact ⟨_, by simp only [resolveParams, hmp, hs, hc, hch, hsr, hb]; rfl⟩

/-- C2 counterexample: the claim says `run()` logs the condition and
returns normally when a required numeric field is absent.  On the code the
`float(None)` `TypeError` escapes `run()` — the outcome is an exception,
and the trace holds no error log and no resource event: `run()` does not
log the condition (the audio device was indeed never opened, and the loop
never entered). -/
theorem missing_field_escapes_run_cex :
    (Engine.run sampleEnv ⟨cfgMissingSensitivity, false⟩ []).outcome
      = Except.error "TypeError: float() argument must be a string or a real number, not NoneType" ∧
    (Engine.run sampleEnv ⟨cfgMissingSensitivity, false⟩ []).trace = [] :=
  ⟨rfl, rfl⟩

/-- C2 amended: when a required numeric field is absent, `run()` raises
before opening the audio device or entering the loop (its trace is empty);
the exception escapes `run()` and is caught by `_engine_thread`, which logs
it and sets the stop event, making the condition fatal for this run. -/
theorem missing_numeric_field_aborts_run (env : Env) (config : PyVal) (b : Bool)
    (frames : List Frame)
    (h : pyGet (cfgSection config "general") "sensitivity" = Except.ok PyVal.none ∨
         pyGet (cfgSection config "general") "launch_cooldown_secs" = Except.ok PyVal.none ∨
         pyGet (cfgSection config "audio") "chunk_size" = Except.ok PyVal.none ∨
         pyGet (cfgSection config "audio") "sample_rate" = Except.ok PyVal.none ∨
         pyGet (cfgSection config "audio") "channels" = Except.ok PyVal.none) :
    ∃ exc, Engine.run env ⟨config, b⟩ frames = ⟨Except.error exc, []⟩ ∧
      engineThread env ⟨config, b⟩ frames
        = (true, [Ev.logError "Unhandled exception in engine run loop"]) := by
  obtain ⟨exc, hexc⟩ := resolveParams_error_of_absent config h
  have hrun : Engine.run env ⟨config, b⟩ frames = ⟨Except.error exc, []⟩ := by
    simp only [Engine.run, hexc]
  exact ⟨exc, hrun, by simp only [engineThread, hrun, List.nil_append]⟩

/-- Witness for the amended C2: `chunk_size` absent. -/
theorem missing_numeric_field_aborts_run_witness :
    pyGet (cfgSection cfgMissingChunk "audio") "chunk_size" = Except.ok PyVal.none ∧
    ∃ exc, Engine.run sampleEnv ⟨cfgMissingChunk, false⟩ [] = ⟨Except.error exc, []⟩ ∧
      engineThread sampleEnv ⟨cfgMissingChunk, false⟩ []
        = (true, [Ev.logError "Unhandled exception in engine run loop"]) :=
  ⟨rfl, missing_numeric_field_aborts_run sampleEnv cfgMissingChunk false []
    (Or.inr (Or.inr (Or.inl rfl)))⟩

/-- When every command in a list is handled without raising, the list's
dispatch events are the concatenation of each command's own events. -/
theorem procCmds_eq_join (env : Env) : ∀ cmds : List PyVal,
    (∀ c ∈ cmds, (procCmd env c).isOk = true) →
    procCmds env cmds = ((cmds.map (cmdEvs env)).flatten, Option.none) := by
  intro cmds
  induction cmds with
  | nil => intro _; rfl
  | cons c rest ih =>
    intro h
    have hc := h c (List.mem_cons_self c rest)
    cases hpc : procCmd env c with
    | error e => rw [hpc] at hc; simp [Except.isOk, Except.toBool] at hc
    | ok evs =>
      have hrest := ih (fun x hx => h x (List.mem_cons_of_mem c hx))
      simp [procCmds, hpc, hrest, cmdEvs]

/-- C5 counterexample: the claim says every valid command is attempted even
if an earlier one fails to tokenize, and that no single command failure
terminates the run loop.  On the code a tokenization failure (unterminated
quote) raises out of the dispatch loop: the label fired (its timestamp was
recorded), but the valid `echo hi` later in the same list is never spawned
and the exception terminates the whole run. -/
theorem command_failure_kills_loop_cex :
    (Engine.run sampleEnv ⟨cfgBadCommand, false⟩ [sampleFrame 5 (mkRat 3 5)]).outcome
      = Except.error "ValueError: No closing quotation" ∧
    Ev.spawn ["echo", "hi"]
      ∉ (Engine.run sampleEnv ⟨cfgBadCommand, false⟩ [sampleFrame 5 (mkRat 3 5)]).trace ∧
    Ev.lastHitSet "wake_a" 5
      ∈ (Engine.run sampleEnv ⟨cfgBadCommand, false⟩ [sampleFrame 5 (mkRat 3 5)]).trace :=
  ⟨rfl, by decide, by decide⟩

/-- C5 amended: commands whose handling does not raise are independent —
when every command in a label's list tokenizes (the only raising step),
each one is attempted and contributes its own events (resolution skip,
spawn-failure warning, or spawn) regardless of earlier commands failing to
resolve or to spawn; but a command that fails to tokenize raises, aborting
the remaining commands and the run loop. -/
theorem commands_independent_when_tokenizable (env : Env) (cmds : List PyVal)
    (h : ∀ c ∈ cmds, (procCmd env c).isOk = true) :
    procCmds env cmds = ((cmds.map (cmdEvs env)).flatten, Option.none) ∧
    ∀ c ∈ cmds, ∀ ev ∈ cmdEvs env c, ev ∈ (procCmds env cmds).1 := by
  have main := procCmds_eq_join env cmds h
  refine ⟨main, fun c hc ev hev => ?_⟩
  rw [main]
  simp only [List.mem_flatten]
  exact ⟨cmdEvs env c, List.mem_map_of_mem (cmdEvs env) hc, hev⟩

/-- Witness for the amended C5: the first command is unresolvable, the
second fails to spawn, the third still spawns. -/
theorem commands_independent_when_tokenizable_witness :
    (∀ c ∈ mixedCmds, (procCmd sampleEnv c).isOk = true) ∧
    (procCmds sampleEnv mixedCmds = ((mixedCmds.map (cmdEvs sampleEnv)).flatten, Option.none) ∧
      ∀ c ∈ mixedCmds, ∀ ev ∈ cmdEvs sampleEnv c, ev ∈ (procCmds sampleEnv mixedCmds).1) ∧
    Ev.spawn ["echo", "hi"] ∈ (procCmds sampleEnv mixedCmds).1 :=
  ⟨by decide, commands_independent_when_tokenizable sampleEnv mixedCmds (by decide), by decide⟩

/-- When the configured model-path value has no usable path, the
model-construction block raises its deliberate `RuntimeError`. -/
theorem resolveModelPaths_error_of_unusable (home : String) (mp : PyVal)
    (hm : mp = PyVal.none ∨ mp = PyVal.list [] ∨
          (∃ xs, mp = PyVal.list xs ∧ ∀ x ∈ xs, x.truthy = false)) :
    resolveModelPaths home mp = Except.error "RuntimeError: No model_paths provided in config" := by
  rcases hm with h | h | ⟨xs, hxs, hall⟩
  · rw [h]; rfl
  · rw [h]; rfl
  · rw [hxs]
    simp only [resolveModelPaths]
    by_cases hxe : xs = []
    · subst hxe; rfl
    · have hxe' : xs.isEmpty = false := by simp [List.isEmpty_iff, hxe]
      have hf : xs.filter PyVal.truthy = [] := by
        rw [List.filter_eq_nil_iff]
        intro a ha
        simp [hall a ha]
      rw [hxe', hf]
      rfl

/-- C6: when the configured model-path sequence is absent (`None`), empty,
or holds only falsy entries, `run()` is fatal for the run: it logs the
error, closes the already-opened stream, terminates the audio handle and
returns normally without entering the loop — and no `Model` is constructed,
in particular never one with the library's built-in default model set. -/
theorem no_default_model_fallback (env : Env) (e : Engine) (frames : List Frame) (p : Params)
    (hr : resolveParams e.config = Except.ok p)
    (ho : env.openFails = false)
    (hm : p.modelPaths = PyVal.none ∨ p.modelPaths = PyVal.list [] ∨
          (∃ xs, p.modelPaths = PyVal.list xs ∧ ∀ x ∈ xs, x.truthy = false)) :
    Engine.run env e frames
      = ⟨Except.ok (), [Ev.streamOpen,
          Ev.logError "RuntimeError: No model_paths provided in config",
          Ev.streamClose, Ev.paTerminate]⟩ ∧
    (∀ ps, Ev.modelConstruct ps ∉ (Engine.run env e frames).trace) ∧
    Ev.modelConstructDefault ∉ (Engine.run env e frames).trace ∧
    (∀ l t, Ev.lastHitSet l t ∉ (Engine.run env e frames).trace) := by
  have hrm := resolveModelPaths_error_of_unusable env.home p.modelPaths hm
  have hmi : modelInit env p
      = ([Ev.logError "RuntimeError: No model_paths provided in config"], Option.none) := by
    simp [modelInit, hrm]
  have hrun : Engine.run env e frames
      = ⟨Except.ok (), [Ev.streamOpen,
          Ev.logError "RuntimeError: No model_paths provided in config",
          Ev.streamClose, Ev.paTerminate]⟩ := by
    simp [Engine.run, hr, ho, hmi]
  refine ⟨hrun, ?_, ?_, ?_⟩ <;> rw [hrun] <;> simp

/-- Witness for C6 with an empty `model_paths` list. -/
theorem no_default_model_fallback_witness :
    (resolveParams cfgEmptyPaths = Except.ok emptyPathsParams ∧
      sampleEnv.openFails = false ∧ emptyPathsParams.modelPaths = PyVal.list []) ∧
    (Engine.run sampleEnv ⟨cfgEmptyPaths, false⟩ []
      = ⟨Except.ok (), [Ev.streamOpen,
          Ev.logError "RuntimeError: No model_paths provided in config",
          Ev.streamClose, Ev.paTerminate]⟩ ∧
    (∀ ps, Ev.modelConstruct ps ∉ (Engine.run sampleEnv ⟨cfgEmptyPaths, false⟩ []).trace) ∧
    Ev.modelConstructDefault ∉ (Engine.run sampleEnv ⟨cfgEmptyPaths, false⟩ []).trace ∧
    (∀ l t, Ev.lastHitSet l t ∉ (Engine.run sampleEnv ⟨cfgEmptyPaths, false⟩ []).trace)) :=
  ⟨⟨rfl, rfl, rfl⟩, no_default_model_fallback sampleEnv ⟨cfgEmptyPaths, false⟩ [] emptyPathsParams
    rfl rfl (Or.inr (Or.inl rfl))⟩

/-- C7: on every exit path from the capture/score/dispatch loop — the stop
event observed (the frame script ends) or an exception propagating out of
the loop body — the `finally` block releases the stream in stop-then-close
order and terminates the audio handle before `run()` returns normally or
the exception surfaces (the post-`finally` exit log appears only on the
normal path, after the release). -/
theorem resources_released_on_loop_exit (env : Env) (e : Engine) (frames : List Frame)
    (p : Params) (labels : List String)
    (hr : resolveParams e.config = Except.ok p)
    (ho : env.openFails = false)
    (hm : (modelInit env p).2 = Option.some labels) :
    ∃ mid,
      ((Engine.run env e frames).outcome = Except.ok () ∧
        (Engine.run env e frames).trace
          = Ev.streamOpen :: mid
              ++ [Ev.streamStop, Ev.streamClose, Ev.paTerminate, Ev.logInfo "run loop exiting"]) ∨
      (∃ exc, (Engine.run env e frames).outcome = Except.error exc ∧
        (Engine.run env e frames).trace
          = Ev.streamOpen :: mid ++ [Ev.streamStop, Ev.streamClose, Ev.paTerminate]) := by
  refine ⟨(modelInit env p).1 ++ (runLoop env p (labels.map (fun l => (l, (0 : ℚ)))) frames).1, ?_⟩
  cases hl : (runLoop env p (labels.map (fun l => (l, (0 : ℚ)))) frames).2 with
  | none =>
    left
    constructor <;> simp [Engine.run, hr, ho, hm, hl]
  | some exc =>
    right
    refine ⟨exc, ?_, ?_⟩ <;> simp [Engine.run, hr, ho, hm, hl]

/-- Witness for C7 on a one-frame run that dispatches and then observes the
stop event. -/
theorem resources_released_on_loop_exit_witness :
    (resolveParams sampleCfg = Except.ok sampleParams ∧
      sampleEnv.openFails = false ∧
      (modelInit sampleEnv sampleParams).2 = Option.some ["wake_a"]) ∧
    (∃ mid,
      ((Engine.run sampleEnv ⟨sampleCfg, false⟩ [sampleFrame 5 (mkRat 3 5)]).outcome = Except.ok () ∧
        (Engine.run sampleEnv ⟨sampleCfg, false⟩ [sampleFrame 5 (mkRat 3 5)]).trace
          = Ev.streamOpen :: mid
              ++ [Ev.streamStop, Ev.streamClose, Ev.paTerminate, Ev.logInfo "run loop exiting"]) ∨
      (∃ exc, (Engine.run sampleEnv ⟨sampleCfg, false⟩ [sampleFrame 5 (mkRat 3 5)]).outcome
            = Except.error exc ∧
        (Engine.run sampleEnv ⟨sampleCfg, false⟩ [sampleFrame 5 (mkRat 3 5)]).trace
          = Ev.streamOpen :: mid ++ [Ev.streamStop, Ev.streamClose, Ev.paTerminate])) :=
  ⟨⟨rfl, rfl, rfl⟩, resources_released_on_loop_exit sampleEnv ⟨sampleCfg, false⟩
    [sampleFrame 5 (mkRat 3 5)] sampleParams ["wake_a"] rfl rfl rfl⟩

/-- Frame steps and reload steps act on disjoint parts of the joint state:
the run's private components evolve the same way whatever the engine field
holds. -/
theorem mrun_engine_irrelevant (env : Env) : ∀ (acts : List Act) (s : MState) (x : Engine),
    (mrun env { s with engine := x } acts).params = (mrun env s acts).params ∧
    (mrun env { s with engine := x } acts).lastHit = (mrun env s acts).lastHit ∧
    (mrun env { s with engine := x } acts).trace = (mrun env s acts).trace := by
  intro acts
  induction acts with
  | nil => intro s x; exact ⟨rfl, rfl, rfl⟩
  | cons a rest ih =>
    intro s x
    cases a with
    | frame f =>
      have hstep : mstep env { s with engine := x } (Act.frame f)
          = { mstep env s (Act.frame f) with engine := x } := rfl
      show (mrun env (mstep env { s with engine := x } (Act.frame f)) rest).params = _ ∧ _
      rw [hstep]
      exact ih (mstep env s (Act.frame f)) x
    | reload c =>
      have hstep : mstep env { s with engine := x } (Act.reload c)
          = { mstep env s (Act.reload c) with engine := reload_config x c } := rfl
      show (mrun env (mstep env { s with engine := x } (Act.reload c)) rest).params = _ ∧ _
      rw [hstep]
      exact ih (mstep env s (Act.reload c)) (reload_config x c)

/-- Dropping the reload steps from an interleaving changes nothing the run
loop observes or produces. -/
theorem mrun_reload_invisible (env : Env) : ∀ (acts : List Act) (s : MState),
    (mrun env s acts).params = (mrun env s (acts.filter Act.isFrame)).params ∧
    (mrun env s acts).lastHit = (mrun env s (acts.filter Act.isFrame)).lastHit ∧
    (mrun env s acts).trace = (mrun env s (acts.filter Act.isFrame)).trace := by
  intro acts
  induction acts with
  | nil => intro s; exact ⟨rfl, rfl, rfl⟩
  | cons a rest ih =>
    intro s
    cases a with
    | frame f =>
      have hfil : (Act.frame f :: rest).filter Act.isFrame
          = Act.frame f :: rest.filter Act.isFrame := rfl
      rw [hfil]
      exact ih (mstep env s (Act.frame f))
    | reload c =>
      have hfil : (Act.reload c :: rest).filter Act.isFrame = rest.filter Act.isFrame := rfl
      rw [hfil]
      have hstep : mstep env s (Act.reload c)
          = { s with engine := reload_config s.engine c } := rfl
      have hirr := mrun_engine_irrelevant env rest s (reload_config s.engine c)
      have hrest := ih s
      show (mrun env (mstep env s (Act.reload c)) rest).params = _ ∧ _
      rw [hstep]
      exact ⟨hirr.1.trans hrest.1, hirr.2.1.trans hrest.2.1, hirr.2.2.trans hrest.2.2⟩

/-- C8: a concurrent `reload_config` call is invisible to an in-flight
`run()`: under any interleaving of loop iterations and reloads, the run's
already-resolved parameters, its `last_hit` store and its event trace are
exactly those of the reload-free run; a reload step changes only the stored
configuration reference, which a future `run()` (on the engine the reload
produced) then resolves instead. -/
theorem reload_config_future_only (env : Env) (s : MState) (acts : List Act)
    (e : Engine) (c : PyVal) (frames : List Frame) :
    ((mrun env s acts).params = (mrun env s (acts.filter Act.isFrame)).params ∧
      (mrun env s acts).lastHit = (mrun env s (acts.filter Act.isFrame)).lastHit ∧
      (mrun env s acts).trace = (mrun env s (acts.filter Act.isFrame)).trace) ∧
    ((mstep env s (Act.reload c)).params = s.params ∧
      (mstep env s (Act.reload c)).lastHit = s.lastHit ∧
      (mstep env s (Act.reload c)).trace = s.trace ∧
      (mstep env s (Act.reload c)).engine.config = c) ∧
    (reload_config e c).config = c ∧
    Engine.run env (reload_config e c) frames = Engine.run env ⟨c, e.runningFlag⟩ frames :=
  ⟨mrun_reload_invisible env acts s, ⟨rfl, rfl, rfl, rfl⟩, rfl, rfl⟩

/-- `fireTimes` distributes over trace concatenation. -/
theorem fireTimes_append (label : String) : ∀ l1 l2 : List Ev,
    fireTimes label (l1 ++ l2) = fireTimes label l1 ++ fireTimes label l2 := by
  intro l1
  induction l1 with
  | nil => intro l2; rfl
  | cons ev rest ih =>
    intro l2
    cases ev with
    | lastHitSet l t => by_cases h : l = label <;> simp [fireTimes, h, ih]
    | streamOpen => simp [fireTimes, ih]
    | streamStop => simp [fireTimes, ih]
    | streamClose => simp [fireTimes, ih]
    | paTerminate => simp [fireTimes, ih]
    | modelConstruct ps => simp [fireTimes, ih]
    | modelConstructDefault => simp [fireTimes, ih]
    | spawn argv => simp [fireTimes, ih]
    | logError m => simp [fireTimes, ih]
    | logWarning m => simp [fireTimes, ih]
    | logDebug m => simp [fireTimes, ih]
    | logInfo m => simp [fireTimes, ih]

/-- Command handling never writes a cooldown timestamp. -/
theorem fireTimes_procCmd (env : Env) (label : String) (c : PyVal) :
    ∀ evs, procCmd env c = Except.ok evs → fireTimes label evs = [] := by
  intro evs h
  unfold procCmd at h
  split at h
  · cases h; rfl
  · split at h
    · split at h
      · exact Except.noConfusion h
      · cases h; rfl
      · split at h
        · split at h
          · cases h; rfl
          · cases h; rfl
        · cases h; rfl
    · exact Except.noConfusion h

/-- A command list's dispatch events contain no cooldown-timestamp write. -/
theorem fireTimes_procCmds (env : Env) (label : String) : ∀ cmds : List PyVal,
    fireTimes label (procCmds env cmds).1 = [] := by
  intro cmds
  induction cmds with
  | nil => rfl
  | cons c rest ih =>
    unfold procCmds
    cases hpc : procCmd env c with
    | error e => rfl
    | ok evs => simp [fireTimes_append, fireTimes_procCmd env label c evs hpc, ih]

/-- The model-construction block writes no cooldown timestamp. -/
theorem fireTimes_modelInit (env : Env) (p : Params) (label : String) :
    fireTimes label (modelInit env p).1 = [] := by
  unfold modelInit
  cases resolveModelPaths env.home p.modelPaths with
  | error msg => rfl
  | ok paths => by_cases h : env.modelConstructFails <;> simp [h, fireTimes]

/-- The head of a nonempty list propagated through `getLast?`. -/
theorem getLast?_cons_getD (v : ℚ) : ∀ l : List ℚ,
    (v :: l).getLast? = Option.some (l.getLast?.getD v) := by
  intro l
  induction l generalizing v with
  | nil => rfl
  | cons a l ih => simp [List.getLast?_cons_cons, ih]

/-- Composing two cooldown-spaced runs of fire times whose baselines agree. -/
theorem chainFrom_append (cd v : ℚ) (l1 l2 : List ℚ)
    (h1 : List.Chain' (fun a b => a + cd ≤ b) (v :: l1))
    (h2 : List.Chain' (fun a b => a + cd ≤ b) ((l1.getLast?.getD v) :: l2)) :
    List.Chain' (fun a b => a + cd ≤ b) (v :: (l1 ++ l2)) ∧
    (l1 ++ l2).getLast?.getD v = l2.getLast?.getD (l1.getLast?.getD v) := by
  constructor
  · have hsplit : v :: (l1 ++ l2) = (v :: l1) ++ l2 := rfl
    rw [hsplit, List.chain'_append]
    refine ⟨h1, h2.tail, ?_⟩
    intro x hx y hy
    rw [getLast?_cons_getD, Option.mem_def, Option.some_inj] at hx
    subst hx
    exact (List.chain'_cons'.mp h2).1 y hy
  · cases l2 with
    | nil => simp
    | cons b l2' =>
      rw [List.getLast?_append_of_ne_nil l1 (by simp), getLast?_cons_getD]
      simp

/-- One buffer entry keeps the label's fire times cooldown-spaced from the
stored baseline and leaves the store's entry at the last fire (or
untouched). -/
theorem procEntry_inv (env : Env) (p : Params) (now : ℚ) (lh : List (String × ℚ))
    (entry : String × List ℚ) (label : String) :
    List.Chain' (fun a b => a + p.cooldown ≤ b)
      (lhLookup lh label :: fireTimes label (procEntry env p now lh entry).2.1) ∧
    lhLookup (procEntry env p now lh entry).1 label
      = (fireTimes label (procEntry env p now lh entry).2.1).getLast?.getD (lhLookup lh label) := by
  unfold procEntry
  by_cases hd : frameDetected p.sensitivity entry.2 = true
  · by_cases he : isEligible p.cooldown now lh entry.1 = true
    · have hguard : lhLookup lh entry.1 + p.cooldown ≤ now := by
        have hq : ¬ (qsub now (lhLookup lh entry.1) < p.cooldown) := by
          simpa [isEligible] using he
        rw [qsub_eq_sub] at hq
        linarith [not_lt.mp hq]
      simp only [hd, he, if_true]
      cases hit : pyIter (cmdsOf p.wakewords entry.1) with
      | error er =>
        by_cases hl : entry.1 = label
        · subst hl
          simp [fireTimes, lhLookup, hguard, List.chain'_cons, List.chain'_singleton]
        · simp [fireTimes, lhLookup, hl, List.chain'_singleton]
      | ok cmds =>
        have hfc : fireTimes label (procCmds env cmds).1 = [] := fireTimes_procCmds env label cmds
        by_cases hl : entry.1 = label
        · subst hl
          simp [fireTimes, lhLookup, hfc, hguard, List.chain'_cons, List.chain'_singleton]
        · simp [fireTimes, lhLookup, hl, hfc, List.chain'_singleton]
    · simp [hd, he, fireTimes, List.chain'_singleton]
  · simp [hd, fireTimes, List.chain'_singleton]

/-- `procEntry`'s invariant extended over a whole `prediction_buffer`. -/
theorem procBuffer_inv (env : Env) (p : Params) (now : ℚ) (label : String) :
    ∀ (entries : List (String × List ℚ)) (lh : List (String × ℚ)),
    List.Chain' (fun a b => a + p.cooldown ≤ b)
      (lhLookup lh label :: fireTimes label (procBuffer env p now entries lh).2.1) ∧
    lhLookup (procBuffer env p now entries lh).1 label
      = (fireTimes label (procBuffer env p now entries lh).2.1).getLast?.getD (lhLookup lh label) := by
  intro entries
  induction entries with
  | nil => intro lh; exact ⟨List.chain'_singleton _, rfl⟩
  | cons entry rest ih =>
    intro lh
    obtain ⟨hch1, hlk1⟩ := procEntry_inv env p now lh entry label
    unfold procBuffer
    cases hpe : procEntry env p now lh entry with
    | mk lh2 r1 =>
      rw [hpe] at hch1 hlk1
      cases r1 with
      | mk evs1 exc =>
        cases exc with
        | some e => exact ⟨hch1, hlk1⟩
        | none =>
          obtain ⟨hch2, hlk2⟩ := ih lh2
          rw [hlk1] at hch2 hlk2
          have hcomp := chainFrom_append p.cooldown (lhLookup lh label)
            (fireTimes label evs1)
            (fireTimes label (procBuffer env p now rest lh2).2.1) hch1 hch2
          constructor
          · simpa [fireTimes_append] using hcomp.1
          · rw [fireTimes_append, hcomp.2]
            exact hlk2

/-- One loop iteration keeps the label's fire times cooldown-spaced. -/
theorem procFrame_inv (env : Env) (p : Params) (label : String)
    (lh : List (String × ℚ)) (f : Frame) :
    List.Chain' (fun a b => a + p.cooldown ≤ b)
      (lhLookup lh label :: fireTimes label (procFrame env p lh f).2.1) ∧
    lhLookup (procFrame env p lh f).1 label
      = (fireTimes label (procFrame env p lh f).2.1).getLast?.getD (lhLookup lh label) := by
  unfold procFrame
  by_cases h1 : f.readFails = true
  · simp [h1, fireTimes, List.chain'_singleton]
  · by_cases h2 : f.predictFails = true
    · simp [h1, h2, fireTimes, List.chain'_singleton]
    · simp only [h1, h2, Bool.false_eq_true, if_false]
      exact procBuffer_inv env p f.now label f.buffer lh

/-- Over the whole loop, a label's recorded fire times stay cooldown-spaced
from the store's starting value. -/
theorem runLoop_inv (env : Env) (p : Params) (label : String) :
    ∀ (frames : List Frame) (lh : List (String × ℚ)),
    List.Chain' (fun a b => a + p.cooldown ≤ b)
      (lhLookup lh label :: fireTimes label (runLoop env p lh frames).1) := by
  intro frames
  induction frames with
  | nil => intro lh; exact List.chain'_singleton _
  | cons f rest ih =>
    intro lh
    obtain ⟨hch1, hlk1⟩ := procFrame_inv env p label lh f
    unfold runLoop
    cases hpf : procFrame env p lh f with
    | mk lh2 r1 =>
      rw [hpf] at hch1 hlk1
      cases r1 with
      | mk evs1 exc =>
        cases exc with
        | some e => exact hch1
        | none =>
          have hch2 := ih lh2
          rw [hlk1] at hch2
          have hcomp := chainFrom_append p.cooldown (lhLookup lh label)
            (fireTimes label evs1)
            (fireTimes label (runLoop env p lh2 rest).1) hch1 hch2
          simpa [fireTimes_append] using hcomp.1

/-- `last_hit` starts at the `0.0` sentinel for every tracked label. -/
theorem lhLookup_map_zero : ∀ (labels : List String) (label : String),
    lhLookup (labels.map (fun l => (l, (0 : ℚ)))) label = 0 := by
  intro labels label
  induction labels with
  | nil => rfl
  | cons a rest ih => by_cases h : a = label <;> simp [lhLookup, h, ih]

/-- C9: per label, dispatches are at least `launch_cooldown_secs` apart on
the monotonic clock: the timestamps recorded by `last_hit[label] = now`
(written before the label's commands are dispatched, so a dispatch failure
cannot re-arm the label) form a chain in which each entry exceeds its
predecessor by at least the cooldown. -/
theorem cooldown_spacing (env : Env) (e : Engine) (frames : List Frame) (p : Params)
    (label : String) (hr : resolveParams e.config = Except.ok p) :
    List.Chain' (fun a b => a + p.cooldown ≤ b)
      (fireTimes label (Engine.run env e frames).trace) := by
  by_cases ho : env.openFails = true
  · simp [Engine.run, hr, ho, fireTimes]
  · cases hm : (modelInit env p).2 with
    | none =>
      simp [Engine.run, hr, ho, hm, fireTimes_append, fireTimes_modelInit, fireTimes]
    | some labels =>
      have hinv := runLoop_inv env p label frames (labels.map (fun l => (l, (0 : ℚ))))
      rw [lhLookup_map_zero labels label] at hinv
      cases hl : (runLoop env p (labels.map (fun l => (l, (0 : ℚ)))) frames).2 with
      | none =>
        have : fireTimes label (Engine.run env e frames).trace
            = fireTimes label (runLoop env p (labels.map (fun l => (l, (0 : ℚ)))) frames).1 := by
          simp [Engine.run, hr, ho, hm, hl, fireTimes_append, fireTimes_modelInit, fireTimes]
        rw [this]
        exact hinv.tail
      | some exc =>
        have : fireTimes label (Engine.run env e frames).trace
            = fireTimes label (runLoop env p (labels.map (fun l => (l, (0 : ℚ)))) frames).1 := by
          simp [Engine.run, hr, ho, hm, hl, fireTimes_append, fireTimes_modelInit, fireTimes]
        rw [this]
        exact hinv.tail

/-- Witness for C9: four above-threshold frames at monotonic times 5, 6, 7
and 9 with cooldown 3 fire exactly at 5 and 9, which are 4 ≥ 3 apart. -/
theorem cooldown_spacing_witness :
    resolveParams sampleCfg = Except.ok sampleParams ∧
    List.Chain' (fun a b => a + sampleParams.cooldown ≤ b)
      (fireTimes "wake_a" (Engine.run sampleEnv ⟨sampleCfg, false⟩
        [sampleFrame 5 (mkRat 3 5), sampleFrame 6 (mkRat 3 5),
         sampleFrame 7 (mkRat 3 5), sampleFrame 9 (mkRat 3 5)]).trace) ∧
    fireTimes "wake_a" (Engine.run sampleEnv ⟨sampleCfg, false⟩
        [sampleFrame 5 (mkRat 3 5), sampleFrame 6 (mkRat 3 5),
         sampleFrame 7 (mkRat 3 5), sampleFrame 9 (mkRat 3 5)]).trace = [5, 9] :=
  ⟨rfl, cooldown_spacing sampleEnv ⟨sampleCfg, false⟩
    [sampleFrame 5 (mkRat 3 5), sampleFrame 6 (mkRat 3 5),
     sampleFrame 7 (mkRat 3 5), sampleFrame 9 (mkRat 3 5)] sampleParams "wake_a" rfl,
   by decide⟩

end VoiceAppLauncher

